import Mathlib

/-!
Shallow embedding of the fossil-sys conan recipe (src/conanfile.py) and proofs
of the frozen claims about it.

The recipe is a Python class `FossilSysConan` with static metadata and the
lifecycle methods layout, generate, source, build, package, package_info.
Each method is embedded below as a Lean function; external collaborators
(git, the conan copy helper, the Meson toolchain writer) are modelled from
the specification, as marked in their doc comments. State that a method could
read or write (the filesystem, the source-folder population) is passed
explicitly.

A central fact of the source file: the class body defines `source` twice
(lines 38-39 and lines 56-57). In Python, the later definition of a method
in the same class body overrides the earlier one, so the effective `source`
is the second one, which runs `git clone --branch v<version> <url>` with no
depth limit.
-/

namespace FossilSysConan

/-- Recipe metadata: `name = "fossil_sys"` (src/conanfile.py line 7). -/
def name : String := "fossil_sys"

/-- Recipe metadata: `version = "0.1.3"` (src/conanfile.py line 8). -/
def version : String := "0.1.3"

/-- Recipe metadata: `url = ...` (src/conanfile.py line 11). -/
def url : String := "https://github.com/fossillogic/fossil-sys"

/-- Host-supplied settings; the recipe declares os, compiler, build_type and
arch (src/conanfile.py line 15). Values are enumeration names as strings. -/
structure Settings where
  os : String
  compiler : String
  build_type : String
  arch : String
deriving DecidableEq, Repr

/-- Recipe options: a single boolean `shared` with default `False`
(src/conanfile.py lines 16-17). -/
structure Options where
  shared : Bool
deriving DecidableEq, Repr

/-- The folder layout the recipe assigns: `self.folders.source` and
`self.folders.build`, both relative to the base directory. -/
structure Folders where
  source : String
  build : String
deriving DecidableEq, Repr

/-- Errors named by the specification error taxonomy. -/
inductive RecipeError where
  | ConfigurationError
  | SourceFetchError
  | UnsupportedSettingsError
  | ConfigureError
  | BuildError
  | PackagingError
deriving DecidableEq, Repr

/-- A filesystem view as far as the layout claims need it: which directories
exist and which are writable. The embedding passes it explicitly so that
absence of reads and writes is visible in the definitions. -/
structure FS where
  dirExists : String → Bool
  writable : String → Bool

/-- Method `layout` (src/conanfile.py lines 22-25): two plain assignments,
`self.folders.source = "."` and `self.folders.build = "builddir"`. -/
def layout : Folders :=
  { source := ".", build := "builddir" }

/-- Method `layout` run against an explicit filesystem state: the body
performs no check and no filesystem operation, so the embedding returns the
assigned folders and the state unchanged, and never returns an error. -/
def layoutRun (fs : FS) (base : String) : Except RecipeError (Folders × FS) :=
  Except.ok (layout, fs)

/-- Modelled from the spec: the host resolves a relative folder declared by
`layout` against the requested base directory; the relative folder "." names
the base directory itself. -/
def resolveFolder (base rel : String) : String :=
  if rel = "." then base else base ++ "/" ++ rel

/-- Modelled from the spec: the MesonToolchain helper (external conan code,
not in src/) derives the toolchain file content from the host Settings and
the recipe Options; the spec names compiler selection, the target mapping
and the shared or static link mode as the captured data. -/
def mesonToolchainContent (s : Settings) (o : Options) : String :=
  "os=" ++ s.os ++ "\ncompiler=" ++ s.compiler ++
  "\nbuild_type=" ++ s.build_type ++ "\narch=" ++ s.arch ++
  "\ndefault_library=" ++ (if o.shared then "shared" else "static")

/-- Method `generate` (src/conanfile.py lines 27-30): builds
`MesonToolchain(self)` from the frozen settings and options and writes the
toolchain file into the build folder. The result is the pair of the written
path and the file content. -/
def generate (s : Settings) (o : Options) (build_folder : String) :
    String × String :=
  (build_folder ++ "/conan_meson.ini", mesonToolchainContent s o)

/-- The first `source` definition (src/conanfile.py lines 38-39): the command
string of its f-string, including the depth limit. This definition is
overridden by the later one and is never the effective method. -/
def sourceCmdFirst : String :=
  "git clone --branch v" ++ version ++ " --depth 1 " ++ url

/-- The second `source` definition (src/conanfile.py lines 56-57): the
command string of its f-string, with no depth option. -/
def sourceCmdSecond : String :=
  "git clone --branch v" ++ version ++ " " ++ url

/-- The effective fetch command of the recipe: Python keeps the later of two
same-named method definitions in one class body, so `source` runs the second
command. -/
def sourceCmd : String := sourceCmdSecond

/-- State of the source folder as far as the source claims need it: whether
the versioned source tree is already present. -/
structure SourceState where
  populated : Bool
deriving DecidableEq, Repr

/-- Modelled from the spec: running the git clone command against a source
folder state. A clone into an already-populated destination fails (the spec
maps fetch failures to SourceFetchError); otherwise it populates the
destination. -/
def runGitClone (s : SourceState) : Except RecipeError SourceState :=
  if s.populated then Except.error RecipeError.SourceFetchError
  else Except.ok { populated := true }

/-- The effective method `source` (src/conanfile.py lines 56-57): it runs the
clone command unconditionally; the body contains no populated check and no
skip. -/
def source (s : SourceState) : Except RecipeError SourceState :=
  runGitClone s

/-- The two operations the method `build` can invoke on the Meson driver. -/
inductive BuildStep where
  | configure
  | build
deriving DecidableEq, Repr

/-- Method `build` (src/conanfile.py lines 32-36): `meson.configure()` then
`meson.build()`, unconditionally. The argument records whether a prior
configuration with an identical toolchain fingerprint already succeeded; the
method body never consults it. -/
def build (priorConfigSucceeded : Bool) : List BuildStep :=
  [BuildStep.configure, BuildStep.build]

/-- Character-list helper: does the second list start with the first. -/
def leadsWith : List Char → List Char → Bool
  | [], _ => true
  | _ :: _, [] => false
  | p :: ps, c :: cs => p == c && leadsWith ps cs

/-- Character-list helper: does the pattern occur inside the list. -/
def hasSub (pat : List Char) : List Char → Bool
  | [] => leadsWith pat []
  | c :: cs => leadsWith pat (c :: cs) || hasSub pat cs

/-- String helper: does `pat` occur inside `s`. -/
def containsSub (s pat : String) : Bool := hasSub pat.data s.data

/-- String helper: does `s` end in `pat`. -/
def endsIn (s pat : String) : Bool :=
  leadsWith pat.data.reverse s.data.reverse

/-- A command requests a ref when it passes it to the branch option. -/
def requestsRef (cmd ref : String) : Bool :=
  containsSub cmd ("--branch " ++ ref)

/-- A command asks for a depth-limited (shallow) history when it passes the
depth option. -/
def isShallowCmd (cmd : String) : Bool :=
  containsSub cmd "--depth"

/-- Matching of the fixed header pattern of the fallback copy: the conan
copy pattern `*.h` selects every file whose relative path ends in `.h`. -/
def matchStarH (path : String) : Bool := endsIn path ".h"

/-- Modelled from the spec: the conan copy helper (external conan code, not
in src/). It copies every source file whose relative path matches the
pattern into the destination directory, overwriting what is there; a file
the pattern does not select is left alone, and selecting zero files is not
an error. Trees are maps from path to content; the source directory is a
list of relative path and content pairs. -/
def copyOp (pattern : String → Bool) (srcFiles : List (String × String))
    (dstDir : String) (tree : String → Option String) :
    String → Option String :=
  fun p =>
    match (srcFiles.filter fun f => pattern f.1).find?
        (fun f => dstDir ++ "/" ++ f.1 == p) with
    | some f => some f.2
    | none => tree p

/-- The destination directory of the fallback copy in method `package`
(src/conanfile.py lines 47-49): `os.path.join(self.package_folder,
"include", "fossil", "sys")`. -/
def packageHeaderDst (package_folder : String) : String :=
  package_folder ++ "/" ++ "include" ++ "/" ++ "fossil" ++ "/" ++ "sys"

/-- The fallback copy step of method `package` (src/conanfile.py lines
46-49): copy every `*.h` under the source subpath `code/logic/fossil/sys`
into the package folder under `include/fossil/sys`. -/
def packageFallbackCopy (srcFiles : List (String × String))
    (package_folder : String) (tree : String → Option String) :
    String → Option String :=
  copyOp matchStarH srcFiles (packageHeaderDst package_folder) tree

/-- The consumer metadata set by `package_info`. -/
structure CppInfo where
  libs : List String
  includedirs : List String
deriving DecidableEq, Repr

/-- Method `package_info` (src/conanfile.py lines 51-54): two assignments of
constants, `self.cpp_info.libs = ["fossil_sys"]` and
`self.cpp_info.includedirs = ["include"]`. The settings and options are in
scope in the method but the body never reads them. -/
def package_info (s : Settings) (o : Options) : CppInfo :=
  { libs := ["fossil_sys"], includedirs := ["include"] }

/-- Method `package_info` run against an explicit view of the package folder
tree (`none` when the folder is absent): the body performs no filesystem
access, so the embedding ignores the tree and never returns an error. -/
def package_infoRun (packageTree : Option (String → Option String)) :
    Except RecipeError CppInfo :=
  Except.ok { libs := ["fossil_sys"], includedirs := ["include"] }

end FossilSysConan

open FossilSysConan

/-- Helper: string append is associative, from list append associativity. -/
theorem strAppend_assoc (a b c : String) : a ++ b ++ c = a ++ (b ++ c) := by
  cases a with
  | mk la =>
    cases b with
    | mk lb =>
      cases c with
      | mk lc =>
        show String.mk (la ++ lb ++ lc) = String.mk (la ++ (lb ++ lc))
        rw [List.append_assoc]

/-- C1, counterexample: the claim says the effective fetch for version 0.1.3
is depth-limited (shallow); but the effective command is the second source
definition, which requests ref v0.1.3 yet carries no depth option. -/
theorem C1_counterexample :
    requestsRef sourceCmd "v0.1.3" = true ∧ isShallowCmd sourceCmd = false := by
  constructor <;> decide

/-- C1, amended: the effective fetch command uses PackageIdentity.url and
requests ref v0.1.3 via the branch option, but performs a full clone with no
depth limit, because the second definition of source overrides the shallow
one. -/
theorem C1_amended :
    sourceCmd = "git clone --branch v0.1.3 https://github.com/fossillogic/fossil-sys" ∧
    requestsRef sourceCmd ("v" ++ version) = true ∧
    isShallowCmd sourceCmd = false ∧
    isShallowCmd sourceCmdFirst = true := by
  refine ⟨rfl, by decide, by decide, by decide⟩

/-- C2, counterexample: the claim says headers land under
include/fossil_sys/sys, but the destination computed by the fallback copy
for a concrete package folder P is P/include/fossil/sys. -/
theorem C2_counterexample :
    packageHeaderDst "P" ≠ "P" ++ "/include/fossil_sys/sys" := by
  decide

/-- C2, amended: the fallback copy places the headers under
include/fossil/sys of the package folder (the namespace is fossil, not the
package name), and package_info reports libs fossil_sys and includedirs
include. -/
theorem C2_amended (package_folder : String) (s : Settings) (o : Options) :
    packageHeaderDst package_folder = package_folder ++ "/include/fossil/sys" ∧
    (package_info s o).libs = ["fossil_sys"] ∧
    (package_info s o).includedirs = ["include"] := by
  refine ⟨?_, rfl, rfl⟩
  show package_folder ++ "/" ++ "include" ++ "/" ++ "fossil" ++ "/" ++ "sys" = _
  rw [strAppend_assoc, strAppend_assoc, strAppend_assoc, strAppend_assoc,
    strAppend_assoc]
  rfl

/-- C3, counterexample: the claim says configure is skipped when a prior
configuration with an identical fingerprint succeeded; but the build method
invoked with that flag true still performs the configure step. -/
theorem C3_counterexample :
    BuildStep.configure ∈ FossilSysConan.build true := by
  decide

/-- C3, amended: the build method always invokes configure and then build,
regardless of whether a prior configuration with an identical fingerprint
succeeded; no skip exists in the recipe. -/
theorem C3_amended (priorConfigSucceeded : Bool) :
    FossilSysConan.build priorConfigSucceeded =
      [BuildStep.configure, BuildStep.build] := rfl

/-- C4, counterexample: the claim says re-invoking source against a
populated source folder is a no-op that does not fail; but the effective
source method re-runs git clone, which fails on a populated destination. -/
theorem C4_counterexample :
    FossilSysConan.source { populated := true } =
      Except.error RecipeError.SourceFetchError := rfl

/-- C4, amended: the effective source method is not idempotent: it contains
no detection of existing population, and invoking it when the source folder
is already populated re-runs git clone and fails with SourceFetchError. -/
theorem C4_amended (s : SourceState) (h : s.populated = true) :
    FossilSysConan.source s = Except.error RecipeError.SourceFetchError := by
  unfold FossilSysConan.source runGitClone
  rw [h]
  rfl

/-- C4, witness for the amended theorem at the populated state. -/
theorem C4_witness :
    SourceState.populated { populated := true } = true ∧
    FossilSysConan.source { populated := true } =
      Except.error RecipeError.SourceFetchError :=
  ⟨rfl, C4_amended { populated := true } rfl⟩

/-- C5, counterexample: the claim says layout raises ConfigurationError
whenever the base directory does not exist; but on a filesystem where no
directory exists and none is writable, layout still succeeds. -/
theorem C5_counterexample :
    (fun _ => false : String → Bool) "/nonexistent" = false ∧
    layoutRun { dirExists := fun _ => false, writable := fun _ => false }
        "/nonexistent" ≠ Except.error RecipeError.ConfigurationError := by
  refine ⟨rfl, ?_⟩
  intro h
  exact Except.noConfusion h

/-- C5, amended: the layout method performs no check at all: for every
filesystem state and base directory it succeeds, returns the two assigned
folders, never raises ConfigurationError, and leaves the filesystem state
unchanged (no side effect). -/
theorem C5_amended (fs : FS) (base : String) :
    layoutRun fs base = Except.ok (layout, fs) := rfl

/-- C6: the toolchain generation is deterministic: two runs with identical
settings and options produce byte-identical toolchain file content, whatever
the build folders are. -/
theorem C6_deterministic (s₁ s₂ : Settings) (o₁ o₂ : Options)
    (f₁ f₂ : String) (hs : s₁ = s₂) (ho : o₁ = o₂) :
    (generate s₁ o₁ f₁).2 = (generate s₂ o₂ f₂).2 := by
  simp [generate, hs, ho]

/-- C6, witness at a concrete settings and options pair. -/
theorem C6_witness :
    ({ os := "Linux", compiler := "gcc", build_type := "Release",
       arch := "x86_64" } : Settings) =
      { os := "Linux", compiler := "gcc", build_type := "Release",
        arch := "x86_64" } ∧
    ({ shared := false } : Options) = { shared := false } ∧
    (generate { os := "Linux", compiler := "gcc", build_type := "Release",
                arch := "x86_64" } { shared := false } "b1").2 =
      (generate { os := "Linux", compiler := "gcc", build_type := "Release",
                  arch := "x86_64" } { shared := false } "b2").2 :=
  ⟨rfl, rfl,
    C6_deterministic _ _ _ _ "b1" "b2" rfl rfl⟩

/-- C7: the consumer metadata is identical for every two assignments of
settings and options, and is fixed by the package name and the layout
convention. -/
theorem C7_independent (s₁ s₂ : Settings) (o₁ o₂ : Options) :
    package_info s₁ o₁ = package_info s₂ o₂ ∧
    (package_info s₁ o₁).libs = [FossilSysConan.name] ∧
    (package_info s₁ o₁).includedirs = ["include"] :=
  ⟨rfl, rfl, rfl⟩

/-- C8: the layout maps the base directory to a source folder that is the
base directory itself and a build folder that is its builddir
subdirectory. -/
theorem C8_layout (base : String) :
    resolveFolder base layout.source = base ∧
    resolveFolder base layout.build = base ++ "/builddir" := by
  constructor
  · show resolveFolder base "." = base
    simp [resolveFolder]
  · show resolveFolder base "builddir" = base ++ "/builddir"
    simp only [resolveFolder]
    rw [if_neg (by decide), strAppend_assoc]
    rfl

/-- C9: the fallback copy is idempotent: running it twice yields the same
package tree as running it once; and when the header pattern selects zero
source files the copy returns the tree unchanged and raises no error. -/
theorem C9_copy (srcFiles : List (String × String)) (package_folder : String)
    (tree : String → Option String) :
    packageFallbackCopy srcFiles package_folder
        (packageFallbackCopy srcFiles package_folder tree) =
      packageFallbackCopy srcFiles package_folder tree ∧
    ((srcFiles.filter fun f => matchStarH f.1) = [] →
      packageFallbackCopy srcFiles package_folder tree = tree) := by
  constructor
  · funext p
    unfold packageFallbackCopy copyOp
    cases (srcFiles.filter fun f => matchStarH f.1).find?
        (fun f => packageHeaderDst package_folder ++ "/" ++ f.1 == p) with
    | none => simp
    | some f => simp
  · intro hz
    funext p
    unfold packageFallbackCopy copyOp
    rw [hz]
    rfl

/-- C9, witness: a source directory holding one non-header file matches zero
headers, and the copy leaves an empty package tree unchanged. -/
theorem C9_witness :
    ([("main.c", "int main")].filter fun f => matchStarH f.1) = [] ∧
    packageFallbackCopy [("main.c", "int main")] "pkg"
        (fun _ => none) = (fun _ => none) :=
  ⟨by decide,
    (C9_copy [("main.c", "int main")] "pkg" (fun _ => none)).2 (by decide)⟩

/-- C10: package_info reads nothing from the package folder and cannot fail:
for every package tree view, including an absent one, it succeeds with the
same constant consumer info. -/
theorem C10_total (packageTree : Option (String → Option String)) :
    package_infoRun packageTree =
      Except.ok { libs := ["fossil_sys"], includedirs := ["include"] } := rfl
